import Mathlib

/-!
Verification of the PLAYALTER backend orchestration layer.

This file gives a shallow embedding, in Lean 4, of the parts of
`backend/platform_orchestrator.py` and `backend/app_enhanced.py` that the
testable properties of the specification talk about, and proves (or refutes)
those properties against the embedding.

Modelling conventions:
* Python dicts with a fixed key set become Lean structures; a key that some
  code path omits becomes an `Option` field (`none` = key absent), and
  `dict.get(k, d)` becomes `Option.getD`.
* Network adapters (mocked in the source with `asyncio.sleep` plus canned
  dicts) are abstracted: each orchestration function takes the adapter
  responses as explicit arguments, so theorems quantify over adapter
  behaviour.  The canned mock values appear where the source hardcodes them.
* Wall-clock time is modelled by explicit parameters: `int(time.time())`
  at the start of a run becomes a `Nat` argument, and the duration of each
  awaited segment becomes a field of a timing environment; pure computation
  takes no time.  `uuid.uuid4().hex[:8]` becomes a `String` argument.
* A Python exception escaping a function is `Except.error msg`; a function
  whose body catches every exception is total and returns its result type.
* Timestamp strings (`datetime.utcnow().isoformat()`) and the
  `last_check` / `metadata` fields of `PlatformHealth` are not modelled:
  no claim mentions them.
-/

namespace Playalter

/-! ### Platform status and health (platform_orchestrator.py, lines 36-67) -/

/-- Embedding of the `PlatformStatus` enum. -/
inductive PlatformStatus where
  | connected
  | disconnected
  | error
  | configured
  | notConfigured
deriving DecidableEq, Repr

/-- Embedding of the `PlatformHealth` dataclass (without `last_check` and
`metadata`, which no claim mentions). -/
structure PlatformHealth where
  name : String
  status : PlatformStatus
  response_time_ms : Option Nat
  error_message : Option String := none
deriving DecidableEq, Repr

/-- Platform names in the order of `load_configuration` (lines 456-502). -/
def platformNames : List String :=
  ["n8n", "stripe", "vercel", "openai", "grok", "replicate", "agora"]

/-- The per-platform `enabled` booleans derived from the environment in
`load_configuration`. -/
structure Config where
  n8nEnabled : Bool
  stripeEnabled : Bool
  vercelEnabled : Bool
  openaiEnabled : Bool
  grokEnabled : Bool
  replicateEnabled : Bool
  agoraEnabled : Bool
deriving DecidableEq, Repr

/-- Lookup of `self.config[name]["enabled"]`. -/
def enabledOf (cfg : Config) (name : String) : Bool :=
  if name = "n8n" then cfg.n8nEnabled
  else if name = "stripe" then cfg.stripeEnabled
  else if name = "vercel" then cfg.vercelEnabled
  else if name = "openai" then cfg.openaiEnabled
  else if name = "grok" then cfg.grokEnabled
  else if name = "replicate" then cfg.replicateEnabled
  else if name = "agora" then cfg.agoraEnabled
  else false

/-- Outcome of one platform-specific probe coroutine (`_health_check_n8n`,
..., `_health_check_agora`) as seen by the dispatcher
`_health_check_platform`: either the `PlatformHealth` it returned, or an
exception that escaped it, together with the wall milliseconds elapsed when
the dispatcher catches it. -/
inductive ProbeOutcome where
  | ok (h : PlatformHealth)
  | exn (msg : String) (elapsedMs : Nat)
deriving DecidableEq, Repr

/-- Embedding of `_health_check_platform` (lines 534-564): dispatch to the
platform probe; any exception is caught and converted to an Error entry.
The unknown-platform `ValueError` raised by the final `else` is likewise
caught by the same `except` block. -/
def healthCheckPlatform (probe : String → ProbeOutcome) (name : String) :
    PlatformHealth :=
  if name ∈ platformNames then
    match probe name with
    | .ok h => h
    | .exn msg t =>
        { name := name, status := .error, response_time_ms := some t,
          error_message := some msg }
  else
    { name := name, status := .error, response_time_ms := some 0,
      error_message := some ("Unknown platform: " ++ name) }

/-- Platforms probed by `health_check_all` (lines 512-515): the enabled ones,
in configuration order. -/
def enabledPlatforms (cfg : Config) : List String :=
  platformNames.filter (fun n => enabledOf cfg n)

/-- Embedding of `health_check_all` (lines 508-532): probe every enabled
platform (via `asyncio.gather` with `return_exceptions=True`; each probe is
independent) and collect the resulting entries.  The Python code stores the
entries in a dict keyed by `result.name`; since every probe names its own
platform, the insertion-ordered entry list carries the same information. -/
def healthCheckAll (cfg : Config) (probe : String → ProbeOutcome) :
    List PlatformHealth :=
  (enabledPlatforms cfg).map (healthCheckPlatform probe)

/-- Outcome of the single HTTP request a probe makes: a response with a
status code, or a raised transport/timeout exception; both carry the wall
milliseconds elapsed at the measurement point. -/
inductive NetOutcome where
  | status (code : Nat) (elapsedMs : Nat)
  | raised (msg : String) (elapsedMs : Nat)
deriving DecidableEq, Repr

/-- Embedding of `_health_check_replicate` (lines 796-845): 200 is
Connected, 402 is Configured (valid key, unfunded account), any other
response status is Error, and a raised exception is Disconnected. -/
def healthCheckReplicate (net : NetOutcome) : PlatformHealth :=
  match net with
  | .status code t =>
      if code = 200 then
        { name := "replicate", status := .connected, response_time_ms := some t }
      else if code = 402 then
        { name := "replicate", status := .configured, response_time_ms := some t,
          error_message := some "API valid but needs credit (HTTP 402)" }
      else
        { name := "replicate", status := .error, response_time_ms := some t,
          error_message := some ("HTTP " ++ toString code) }
  | .raised msg t =>
      { name := "replicate", status := .disconnected, response_time_ms := some t,
        error_message := some msg }

/-! ### Mask options (platform_orchestrator.py, lines 43-48 and 183-188) -/

/-- Embedding of the `MaskOptions` dataclass with its field defaults. -/
structure MaskOptions where
  ethnic : String := "diverse"
  quality : String := "ultra"
  AR : String := "overlays"
deriving DecidableEq, Repr

/-- The `options` dict of a request body: each of the three recognised keys
may be present (with an arbitrary string value) or absent. -/
structure OptionsDict where
  ethnic : Option String := none
  quality : Option String := none
  AR : Option String := none
deriving DecidableEq, Repr

/-- Embedding of the `MaskOptions(...)` construction in
`orchestrate_mask_stream` (lines 184-188): every field is
`options.get(key, default)`. -/
def buildMaskOptions (options : OptionsDict) : MaskOptions :=
  { ethnic := options.ethnic.getD "diverse",
    quality := options.quality.getD "ultra",
    AR := options.AR.getD "overlays" }

/-! ### Workflow orchestration (platform_orchestrator.py, lines 885-1065)

The per-platform adapter calls (`_call_stripe_validate_payment`, ...) are
mocks that sleep and return canned dicts.  Each orchestration function below
takes the adapter responses as explicit arguments (one bundle, `AdapterEnv`),
so the theorems quantify over adapter behaviour; each response record mirrors
the keys of the corresponding mock dict. -/

/-- Response of `_call_stripe_validate_payment` (line 1071). -/
structure StripeValidationRes where
  valid : Bool
  amount : Nat := 2000
  currency : String := "usd"
  processing_time_ms : Nat
deriving DecidableEq, Repr

/-- Response of `_call_stripe_create_customer` (line 1076). -/
structure StripeCustomerRes where
  customer_id : String
  email : Option String := none
  processing_time_ms : Nat
deriving DecidableEq, Repr

/-- Response of `_call_replicate_face_swap` (line 1081). -/
structure ReplicateSwapRes where
  output_url : String
  processing_time_ms : Nat
deriving DecidableEq, Repr

/-- Response of `_call_replicate_image_processing` (line 1086). -/
structure ReplicateImgRes where
  images : List String
  processing_time_ms : Nat
deriving DecidableEq, Repr

/-- Response of `_call_n8n_trigger` (line 1091). -/
structure N8nTriggerRes where
  triggered : Bool
  workflow_id : String
  processing_time_ms : Nat
deriving DecidableEq, Repr

/-- Response of `_call_vercel_deploy` (line 1096). -/
structure VercelDeployRes where
  url : String
  deployment_id : String
  processing_time_ms : Nat
deriving DecidableEq, Repr

/-- Response of `_call_vercel_deploy_content` (line 1101). -/
structure VercelContentRes where
  url : String
  processing_time_ms : Nat
deriving DecidableEq, Repr

/-- Response of `_call_agora_generate_token` (line 1106). -/
structure AgoraTokenRes where
  token : String
  expires_at : Nat
  processing_time_ms : Nat
deriving DecidableEq, Repr

/-- Response of `_call_agora_setup_user` (line 1111). -/
structure AgoraSetupUserRes where
  user_profile_id : String
  processing_time_ms : Nat
deriving DecidableEq, Repr

/-- Response of `_call_openai_generate` (line 1116). -/
structure OpenAIGenRes where
  text : String
  image_prompt : String
  processing_time_ms : Nat
deriving DecidableEq, Repr

/-- Response of `_setup_ai_pipeline` (line 1121). -/
structure AiPipelineRes where
  pipeline_id : String
  processing_time_ms : Nat
deriving DecidableEq, Repr

/-- One bundle of adapter responses, standing for what the awaited adapter
calls of a single run would return. -/
structure AdapterEnv where
  stripeValidate : StripeValidationRes
  stripeCustomer : StripeCustomerRes
  replicateSwap : ReplicateSwapRes
  replicateImages : ReplicateImgRes
  n8nTrig : N8nTriggerRes
  vercelDeploy : VercelDeployRes
  vercelContent : VercelContentRes
  agoraToken : AgoraTokenRes
  agoraSetup : AgoraSetupUserRes
  openaiGen : OpenAIGenRes
  aiPipeline : AiPipelineRes
deriving DecidableEq, Repr

/-- The `result` payload stored in one `steps` entry. -/
inductive StepResult where
  | stripeValidation (r : StripeValidationRes)
  | stripeCustomer (r : StripeCustomerRes)
  | faceSwap (r : ReplicateSwapRes)
  | replicateProcessing (r : ReplicateImgRes)
  | n8nTrigger (r : N8nTriggerRes)
  | vercelDeploy (r : VercelDeployRes)
  | vercelContent (r : VercelContentRes)
  | agoraToken (r : AgoraTokenRes)
  | agoraSetup (r : AgoraSetupUserRes)
  | openaiGeneration (r : OpenAIGenRes)
  | aiPipeline (r : AiPipelineRes)
deriving DecidableEq, Repr

/-- Models `step["result"].get("processing_time_ms", 0)` (line 953): every
adapter response carries the key. -/
def StepResult.ptime : StepResult → Nat
  | .stripeValidation r => r.processing_time_ms
  | .stripeCustomer r => r.processing_time_ms
  | .faceSwap r => r.processing_time_ms
  | .replicateProcessing r => r.processing_time_ms
  | .n8nTrigger r => r.processing_time_ms
  | .vercelDeploy r => r.processing_time_ms
  | .vercelContent r => r.processing_time_ms
  | .agoraToken r => r.processing_time_ms
  | .agoraSetup r => r.processing_time_ms
  | .openaiGeneration r => r.processing_time_ms
  | .aiPipeline r => r.processing_time_ms

/-- One entry of the steps list of a workflow: a dict with a step name and
the result payload of that step. -/
structure StepEntry where
  step : String
  result : StepResult
deriving DecidableEq, Repr

/-- The fields of the `data` argument that the four workflows read. -/
structure WorkflowData where
  payment_intent_id : Option String := none
  source_image : Option String := none
  target_image : Option String := none
  user_id : Option String := none
  deploy_result : Bool := false
  email : Option String := none
  name : Option String := none
  channel_name : Option String := none
  prompt : Option String := none
  process_images : Bool := false
  content_type : Option String := none
deriving DecidableEq, Repr

/-- Reading a Python local that is only bound on some paths: a read of an
unbound local raises `NameError`, which (like any exception) escapes the
sub-workflow and is caught by `orchestrate_workflow`. -/
def getVar {α : Type} (varName : String) : Option α → Except String α
  | some a => Except.ok a
  | none => Except.error ("NameError: " ++ varName ++ " is not defined")

/-- Result dict of `_orchestrate_face_swap_payment`.  The early
payment-invalid return (line 926) omits `final_result` and
`processing_time_ms` (hence the `Option` fields) and has no `reason` on the
success path. -/
structure FaceSwapOut where
  workflow_id : String
  status : String
  reason : Option String := none
  steps : List StepEntry
  final_result : Option String := none
  processing_time_ms : Option Nat := none
deriving DecidableEq, Repr

/-- Embedding of `_orchestrate_face_swap_payment` (lines 916-955).  Note
that the success return (line 952) and the n8n / vercel steps read the
local `replicate_result`, which is unbound when the replicate platform is
disabled: that read raises `NameError`. -/
def orchestrateFaceSwapPayment (cfg : Config) (env : AdapterEnv)
    (workflowId : String) (data : WorkflowData) : Except String FaceSwapOut := do
  let steps1 : List StepEntry :=
    if cfg.stripeEnabled then
      [⟨"stripe_validation", .stripeValidation env.stripeValidate⟩]
    else []
  if cfg.stripeEnabled && !env.stripeValidate.valid then
    return { workflow_id := workflowId, status := "failed",
             reason := some "payment_invalid", steps := steps1 }
  let replicateVar : Option ReplicateSwapRes :=
    if cfg.replicateEnabled then some env.replicateSwap else none
  let steps2 := steps1 ++
    (if cfg.replicateEnabled then [⟨"face_swap", .faceSwap env.replicateSwap⟩] else [])
  let steps3 ← if cfg.n8nEnabled then do
      let _ ← getVar "replicate_result" replicateVar
      pure (steps2 ++ [⟨"n8n_trigger", .n8nTrigger env.n8nTrig⟩])
    else pure steps2
  let steps4 ← if cfg.vercelEnabled && data.deploy_result then do
      let _ ← getVar "replicate_result" replicateVar
      pure (steps3 ++ [⟨"vercel_deploy", .vercelDeploy env.vercelDeploy⟩])
    else pure steps3
  let replicateResult ← getVar "replicate_result" replicateVar
  return { workflow_id := workflowId, status := "completed", steps := steps4,
           final_result := some replicateResult.output_url,
           processing_time_ms := some ((steps4.map (fun s => s.result.ptime)).sum) }

/-- Result dict of `_orchestrate_user_onboarding` (lines 981-990), with the
`user_profile` sub-dict flattened into its two keys. -/
structure OnboardingOut where
  workflow_id : String
  status : String
  steps : List StepEntry
  stripe_customer_id : Option String
  agora_user_id : Option String
deriving DecidableEq, Repr

/-- Embedding of `_orchestrate_user_onboarding` (lines 957-990); the n8n
step and the final `user_profile` read the local `stripe_result`, unbound
when the stripe platform is disabled. -/
def orchestrateUserOnboarding (cfg : Config) (env : AdapterEnv)
    (workflowId : String) (data : WorkflowData) : Except String OnboardingOut := do
  let stripeVar : Option StripeCustomerRes :=
    if cfg.stripeEnabled then some env.stripeCustomer else none
  let steps1 : List StepEntry :=
    if cfg.stripeEnabled then
      [⟨"stripe_customer", .stripeCustomer env.stripeCustomer⟩]
    else []
  let steps2 := steps1 ++
    (if cfg.agoraEnabled then [⟨"agora_setup", .agoraSetup env.agoraSetup⟩] else [])
  let steps3 ← if cfg.n8nEnabled then do
      let _ ← getVar "stripe_result" stripeVar
      pure (steps2 ++ [⟨"n8n_onboarding", .n8nTrigger env.n8nTrig⟩])
    else pure steps2
  let stripeResult ← getVar "stripe_result" stripeVar
  return { workflow_id := workflowId, status := "completed", steps := steps3,
           stripe_customer_id := some stripeResult.customer_id,
           agora_user_id := data.user_id }

/-- Result dict of `_orchestrate_live_stream_setup` (lines 1015-1025), with
the `stream_config` sub-dict flattened. -/
structure LiveStreamOut where
  workflow_id : String
  status : String
  steps : List StepEntry
  agora_token : Option String
  channel_name : Option String
  ai_enabled : Bool
deriving DecidableEq, Repr

/-- Embedding of `_orchestrate_live_stream_setup` (lines 992-1025); the n8n
step and the final `stream_config` read the locals `agora_result` and
`ai_result`, which are unbound when the corresponding platforms are
disabled.  `ai_enabled` is `bool(ai_result.get("pipeline_id"))`, i.e. the
truthiness (non-emptiness) of the pipeline id string. -/
def orchestrateLiveStreamSetup (cfg : Config) (env : AdapterEnv)
    (workflowId : String) (data : WorkflowData) : Except String LiveStreamOut := do
  let agoraVar : Option AgoraTokenRes :=
    if cfg.agoraEnabled then some env.agoraToken else none
  let aiVar : Option AiPipelineRes :=
    if cfg.openaiEnabled && cfg.replicateEnabled then some env.aiPipeline else none
  let steps1 : List StepEntry :=
    if cfg.agoraEnabled then [⟨"agora_token", .agoraToken env.agoraToken⟩] else []
  let steps2 := steps1 ++
    (if cfg.openaiEnabled && cfg.replicateEnabled then
      [⟨"ai_pipeline", .aiPipeline env.aiPipeline⟩]
    else [])
  let steps3 ← if cfg.n8nEnabled then do
      let _ ← getVar "agora_result" agoraVar
      pure (steps2 ++ [⟨"n8n_monitoring", .n8nTrigger env.n8nTrig⟩])
    else pure steps2
  let agoraResult ← getVar "agora_result" agoraVar
  let aiResult ← getVar "ai_result" aiVar
  return { workflow_id := workflowId, status := "completed", steps := steps3,
           agora_token := some agoraResult.token,
           channel_name := data.channel_name,
           ai_enabled := !(aiResult.pipeline_id == "") }

/-- Result dict of `_orchestrate_ai_content_generation` (lines 1055-1065),
with the `content` sub-dict flattened. -/
structure AiContentOut where
  workflow_id : String
  status : String
  steps : List StepEntry
  generated_text : Option String
  generated_images : List String
  deployment_url : Option String
deriving DecidableEq, Repr

/-- Embedding of `_orchestrate_ai_content_generation` (lines 1027-1065); the
replicate step reads `openai_result`, the vercel step reads both
`openai_result` and `replicate_result`, the n8n step reads `vercel_result`,
and the final `content` reads all three — each read raises `NameError` when
the corresponding earlier step did not run. -/
def orchestrateAiContentGeneration (cfg : Config) (env : AdapterEnv)
    (workflowId : String) (data : WorkflowData) : Except String AiContentOut := do
  let openaiVar : Option OpenAIGenRes :=
    if cfg.openaiEnabled then some env.openaiGen else none
  let replicateVar : Option ReplicateImgRes :=
    if cfg.replicateEnabled && data.process_images then some env.replicateImages else none
  let vercelVar : Option VercelContentRes :=
    if cfg.vercelEnabled then some env.vercelContent else none
  let steps1 : List StepEntry :=
    if cfg.openaiEnabled then
      [⟨"openai_generation", .openaiGeneration env.openaiGen⟩]
    else []
  let steps2 ← if cfg.replicateEnabled && data.process_images then do
      let _ ← getVar "openai_result" openaiVar
      pure (steps1 ++ [⟨"replicate_processing", .replicateProcessing env.replicateImages⟩])
    else pure steps1
  let steps3 ← if cfg.vercelEnabled then do
      let _ ← getVar "openai_result" openaiVar
      let _ ← getVar "replicate_result" replicateVar
      pure (steps2 ++ [⟨"vercel_deployment", .vercelContent env.vercelContent⟩])
    else pure steps2
  let steps4 ← if cfg.n8nEnabled then do
      let _ ← getVar "vercel_result" vercelVar
      pure (steps3 ++ [⟨"n8n_distribution", .n8nTrigger env.n8nTrig⟩])
    else pure steps3
  let openaiResult ← getVar "openai_result" openaiVar
  let replicateResult ← getVar "replicate_result" replicateVar
  let vercelResult ← getVar "vercel_result" vercelVar
  return { workflow_id := workflowId, status := "completed", steps := steps4,
           generated_text := some openaiResult.text,
           generated_images := replicateResult.images,
           deployment_url := some vercelResult.url }

/-- The failure dict built by the `except` block of `orchestrate_workflow`
(lines 908-914): note it has no `steps` key at all.  Its
`processing_time_ms` is the wall-clock span to the failure; in this
timing-free embedding of `orchestrate_workflow` it is reported as 0. -/
structure FailureOut where
  workflow_id : String
  status : String
  error : String
  processing_time_ms : Nat
deriving DecidableEq, Repr

/-- The heterogeneous return value of `orchestrate_workflow`: one of the
four sub-workflow result dicts, or the failure dict. -/
inductive WorkflowResult where
  | faceSwap (o : FaceSwapOut)
  | onboarding (o : OnboardingOut)
  | liveStream (o : LiveStreamOut)
  | aiContent (o : AiContentOut)
  | failure (o : FailureOut)
deriving DecidableEq, Repr

/-- The `status` value of a workflow result. -/
def WorkflowResult.status : WorkflowResult → String
  | .faceSwap o => o.status
  | .onboarding o => o.status
  | .liveStream o => o.status
  | .aiContent o => o.status
  | .failure o => o.status

/-- The `workflow_id` value of a workflow result. -/
def WorkflowResult.workflowId : WorkflowResult → String
  | .faceSwap o => o.workflow_id
  | .onboarding o => o.workflow_id
  | .liveStream o => o.workflow_id
  | .aiContent o => o.workflow_id
  | .failure o => o.workflow_id

/-- The `steps` list of a workflow result, `none` when the dict has no
`steps` key (the failure dict). -/
def WorkflowResult.stepsKey : WorkflowResult → Option (List StepEntry)
  | .faceSwap o => some o.steps
  | .onboarding o => some o.steps
  | .liveStream o => some o.steps
  | .aiContent o => some o.steps
  | .failure _ => none

/-- Models `result.get("steps", [])`: the steps list, empty when absent. -/
def WorkflowResult.stepsOrEmpty (r : WorkflowResult) : List StepEntry :=
  r.stepsKey.getD []

/-- The `error` value of a workflow result, `none` when the dict has no
`error` key. -/
def WorkflowResult.errorKey : WorkflowResult → Option String
  | .failure o => some o.error
  | _ => none

/-- Embedding of `orchestrate_workflow` (lines 885-914): generate the run id
as the prefix wf_ followed by the whole start second, dispatch on the
workflow name, and convert any exception — including the `ValueError`
raised for an unknown name — into the failure dict.  The function is total:
no exception reaches the caller. -/
def orchestrateWorkflow (cfg : Config) (env : AdapterEnv) (nowSec : Nat)
    (workflowName : String) (data : WorkflowData) : WorkflowResult :=
  let workflowId := "wf_" ++ toString nowSec
  let fail := fun (e : String) =>
    WorkflowResult.failure
      { workflow_id := workflowId, status := "failed", error := e,
        processing_time_ms := 0 }
  if workflowName = "face_swap_payment" then
    match orchestrateFaceSwapPayment cfg env workflowId data with
    | .ok o => .faceSwap o
    | .error e => fail e
  else if workflowName = "user_onboarding" then
    match orchestrateUserOnboarding cfg env workflowId data with
    | .ok o => .onboarding o
    | .error e => fail e
  else if workflowName = "live_stream_setup" then
    match orchestrateLiveStreamSetup cfg env workflowId data with
    | .ok o => .liveStream o
    | .error e => fail e
  else if workflowName = "ai_content_generation" then
    match orchestrateAiContentGeneration cfg env workflowId data with
    | .ok o => .aiContent o
    | .error e => fail e
  else
    fail ("Unknown workflow: " ++ workflowName)

/-- The four known workflow names (the dispatch chain of
`orchestrate_workflow` and `get_orchestration_status`). -/
def workflowNames : List String :=
  ["face_swap_payment", "user_onboarding", "live_stream_setup",
   "ai_content_generation"]

/-! ### Hierarchical mask-stream orchestration (platform_orchestrator.py,
lines 141-454)

Time model for one `orchestrate_mask_stream` run: the run consists of three
awaited segments — the master-decision phase, the replicate child-agent
step, and the agora child-agent step — whose wall durations are the three
fields of `MaskTimingEnv`; pure computation takes no time, so a
`time.time()` difference equals the sum of the awaited segments it spans. -/

/-- Wall durations (milliseconds) of the three awaited segments of one run. -/
structure MaskTimingEnv where
  masterMs : Nat
  replicateMs : Nat
  agoraMs : Nat
deriving DecidableEq, Repr

/-- The parameter dict of an `AgentDecision`.  The `ethics_check` and
`estimated_processing_time` keys exist only on the GPT-4o path (lines
290-296), not in the fallback parameters (lines 306-310). -/
structure DecisionParams where
  strategy : String
  priority : String
  resource_allocation : String
  ethics_check : Option Bool := none
  estimated_processing_time : Option Nat := none
deriving DecidableEq, Repr

/-- Embedding of the `AgentDecision` dataclass (without `timestamp`). -/
structure AgentDecision where
  workflow_id : String
  action : String
  parameters : DecisionParams
  confidence : ℚ
  reasoning : String
deriving DecidableEq, Repr

/-- The dict returned by `_call_openai_decision` (lines 1156-1222).  That
helper catches every exception and always returns these six keys, so it is
modelled as an arbitrary value of this shape. -/
structure DecisionResponse where
  strategy : String := "standard"
  priority : String := "quality"
  resource_allocation : String := "balanced"
  confidence : ℚ := 0.85
  reasoning : String := "GPT-4o strategic analysis"
  estimated_time : Nat := 3000
deriving DecidableEq, Repr

/-- Embedding of `_master_agent_decide` (lines 256-326).  `self.master_agent`
is set exactly when the openai platform is enabled (agent setup, lines
89-101), so the GPT-4o branch runs iff openai is enabled; otherwise the
fixed fallback decision is returned.  The helper never raises.  The mask
options influence only the prompt text sent to the model, not the decision
record built from the response, so the binder is intentionally unused. -/
def masterAgentDecide (cfg : Config) (decResp : DecisionResponse)
    (workflowId : String) (_options : MaskOptions) : AgentDecision :=
  if cfg.openaiEnabled then
    { workflow_id := workflowId, action := "process_advanced_mask",
      parameters :=
        { strategy := decResp.strategy, priority := decResp.priority,
          resource_allocation := decResp.resource_allocation,
          ethics_check := some true,
          estimated_processing_time := some decResp.estimated_time },
      confidence := decResp.confidence, reasoning := decResp.reasoning }
  else
    { workflow_id := workflowId, action := "process_standard_mask",
      parameters :=
        { strategy := "fallback", priority := "speed",
          resource_allocation := "minimal" },
      confidence := 0.7, reasoning := "Fallback mode - GPT-4o not available" }

/-- Embedding of the ethics-compliance mock `_validate_ethics_compliance`
(lines 1278-1308): the try body cannot fail, so the result is constant. -/
structure EthicsResult where
  compliant : Bool := true
  confidence : ℚ := 0.98
  risk_level : String := "low"
deriving DecidableEq, Repr

/-- The `features_applied` sub-dict of the replicate agent result (lines
367-372). -/
structure FeaturesApplied where
  ethnic_diversity : Bool
  ultra_quality : Bool
  ar_overlays : Bool
  multi_face_support : Bool
deriving DecidableEq, Repr

/-- Result dict of `_replicate_agent_process_mask`: the success dict (lines
359-378) or the failure dict (lines 387-393); fields that only one of the
two shapes carries are `Option`. -/
structure ReplicateAgentOut where
  agent : String := "replicate_mask_processor"
  workflow_id : String
  status : Option String := none
  error : Option String := none
  swapped_url : Option String := none
  faces_detected : Option Nat := none
  quality_score : Option ℚ := none
  ethics_compliance : Option EthicsResult := none
  features_applied : Option FeaturesApplied := none
  processing_strategy : Option String := none
  processing_time_ms : Nat
deriving DecidableEq, Repr

/-- Embedding of `_replicate_agent_process_mask` (lines 328-393) together
with the mock `_call_replicate_advanced_mask` (lines 1224-1276): when the
replicate platform is disabled the step catches its own `ValueError` and
returns a failed step dict; otherwise the mock response is deterministic
given the options and the start second (`faces_count` is 2 because
`multi_face_enabled` is always true; the output URL embeds
the start second).  Both paths report the wall elapsed time measured
inside the step itself. -/
def replicateAgentProcessMask (cfg : Config) (timing : MaskTimingEnv)
    (tNow : Nat) (workflowId : String) (options : MaskOptions)
    (decision : AgentDecision) : ReplicateAgentOut :=
  if cfg.replicateEnabled then
    let facesCount : Nat := 2
    { workflow_id := workflowId,
      swapped_url :=
        some ("https://replicate.delivery/mask_output_" ++ toString tNow ++ ".jpg"),
      faces_detected := some facesCount,
      quality_score := some (if options.quality = "ultra" then 0.95 else 0.85),
      ethics_compliance := some {},
      features_applied := some
        { ethnic_diversity := !(options.ethnic == "diverse"),
          ultra_quality := options.quality == "ultra",
          ar_overlays := options.AR == "overlays" || options.AR == "full",
          multi_face_support := decide (facesCount > 1) },
      processing_strategy := some decision.parameters.strategy,
      processing_time_ms := timing.replicateMs }
  else
    { workflow_id := workflowId, status := some "failed",
      error := some "Replicate agent not enabled",
      processing_time_ms := timing.replicateMs }

/-- The Agora video profile table `_get_video_profile` (lines 1310-1333);
an unknown quality string falls back to the standard profile. -/
structure VideoProfile where
  width : Nat
  height : Nat
  framerate : Nat
  bitrate : Nat
deriving DecidableEq, Repr

/-- Embedding of `_get_video_profile`. -/
def getVideoProfile (quality : String) : VideoProfile :=
  if quality = "standard" then ⟨640, 480, 15, 500⟩
  else if quality = "high" then ⟨1280, 720, 30, 1200⟩
  else if quality = "ultra" then ⟨1920, 1080, 60, 2500⟩
  else ⟨640, 480, 15, 500⟩

/-- The `stream_config` sub-dict of the agora agent result (lines 413-420). -/
structure StreamConfig where
  channel_name : String
  video_profile : VideoProfile
  ar_enabled : Bool
  adaptive_streaming : Bool := true
  max_users : Nat := 10
  recording_enabled : Bool := true
deriving DecidableEq, Repr

/-- Result dict of `_agora_agent_setup_stream`: the success dict (lines
424-439) or the failure dict (lines 448-454). -/
structure AgoraAgentOut where
  agent : String := "agora_stream_manager"
  workflow_id : String
  status : Option String := none
  error : Option String := none
  stream_token : Option String := none
  channel_name : Option String := none
  stream_url : Option String := none
  expires_at : Option Nat := none
  stream_config : Option StreamConfig := none
  processing_time_ms : Nat
deriving DecidableEq, Repr

/-- Embedding of `_agora_agent_setup_stream` (lines 395-454) together with
the token mock `_call_agora_generate_token` (line 1106): when the agora
platform is disabled the step catches its own `ValueError` and returns a
failed step dict; otherwise the channel name is derived from the workflow
id and the mock token embeds `int(time.time())`.  The `swapped_url`
argument is accepted but never used by the step. -/
def agoraAgentSetupStream (cfg : Config) (timing : MaskTimingEnv)
    (tNow : Nat) (workflowId : String) (swappedUrl : String)
    (options : MaskOptions) : AgoraAgentOut :=
  if cfg.agoraEnabled then
    let channelName := "mask_stream_" ++ workflowId
    let _ := swappedUrl
    { workflow_id := workflowId,
      stream_token := some ("agora_token_" ++ toString tNow),
      channel_name := some channelName,
      stream_url := some ("agora://" ++ channelName),
      expires_at := some (tNow + 3600),
      stream_config := some
        { channel_name := channelName,
          video_profile := getVideoProfile options.quality,
          ar_enabled := options.AR == "overlays" || options.AR == "full" },
      processing_time_ms := timing.agoraMs }
  else
    { workflow_id := workflowId, status := some "failed",
      error := some "Agora agent not enabled",
      processing_time_ms := timing.agoraMs }

/-- The request body of `orchestrate_mask_stream`: `body.get("input_image",
"")` and `body.get("options", {})`. -/
structure MaskBody where
  input_image : String := ""
  options : OptionsDict := {}
deriving DecidableEq, Repr

/-- The return dict of `orchestrate_mask_stream`: the success dict (lines
215-234, with `processing_details` flattened into its keys) or the failure
dict (lines 245-251). -/
structure MaskStreamOut where
  workflow_id : String
  status : String
  error : Option String := none
  swapped_url : Option String := none
  stream_token : Option String := none
  master_decision : Option AgentDecision := none
  replicate_processing : Option ReplicateAgentOut := none
  agora_streaming : Option AgoraAgentOut := none
  agents_used : List String := []
  total_processing_time_ms : Option Nat := none
  processing_time_ms : Option Nat := none
deriving DecidableEq, Repr

/-- Embedding of `orchestrate_mask_stream` (lines 141-254).  The workflow id
is `mask_stream_` plus eight uuid hex characters; an empty `input_image`
raises `ValueError`, caught by the outer `except` which builds the failure
dict (no awaited segment has run at that point, so its wall elapsed time is
0).  Otherwise the three agent phases run in sequence — none of them can
raise — and the reported `total_processing_time_ms` is the wall-clock span
`(time.time() - start_time) * 1000` of the whole run, i.e. the sum of all
three segment durations. -/
def orchestrateMaskStream (cfg : Config) (timing : MaskTimingEnv)
    (decResp : DecisionResponse) (tNow : Nat) (uuidHex8 : String)
    (body : MaskBody) : MaskStreamOut :=
  let workflowId := "mask_stream_" ++ uuidHex8
  if body.input_image = "" then
    { workflow_id := workflowId, status := "failed",
      error := some "input_image is required",
      processing_time_ms := some 0 }
  else
    let maskOptions := buildMaskOptions body.options
    let masterDecision := masterAgentDecide cfg decResp workflowId maskOptions
    let replicateResult :=
      replicateAgentProcessMask cfg timing tNow workflowId maskOptions masterDecision
    let agoraResult :=
      agoraAgentSetupStream cfg timing tNow workflowId
        (replicateResult.swapped_url.getD "") maskOptions
    { workflow_id := workflowId, status := "success",
      swapped_url := replicateResult.swapped_url,
      stream_token := agoraResult.stream_token,
      master_decision := some masterDecision,
      replicate_processing := some replicateResult,
      agora_streaming := some agoraResult,
      agents_used := ["master_gpt4o", "replicate_mask", "agora_stream"],
      total_processing_time_ms :=
        some (timing.masterMs + timing.replicateMs + timing.agoraMs) }

/-! ### Stripe webhook dispatch (app_enhanced.py, lines 517-602) -/

/-- A JSON value appearing in a webhook response body (string or boolean). -/
inductive JVal where
  | s (v : String)
  | b (v : Bool)
deriving DecidableEq, Repr

/-- Outcome of parsing / signature-verifying the inbound webhook payload
(the `stripe.Webhook.construct_event` / `construct_from` call): a parsed
event with its type string, or one of the three caught exception classes. -/
inductive ParseOutcome where
  | parsed (eventType : String)
  | valueError (msg : String)
  | sigError (msg : String)
  | otherError (msg : String)
deriving DecidableEq, Repr

/-- The event types the `if/elif` chain of `stripe_webhook` handles
explicitly. -/
def knownEventTypes : List String :=
  ["payment_intent.succeeded", "payment_intent.payment_failed",
   "checkout.session.completed", "customer.subscription.created",
   "customer.subscription.updated", "customer.subscription.deleted",
   "invoice.payment_succeeded", "invoice.payment_failed"]

/-- The n8n workflow name each event type triggers (lines 541-586): the
eight known types map to fixed names and every other type falls through to
the single generic name. -/
def eventWorkflowName (eventType : String) : String :=
  if eventType = "payment_intent.succeeded" then "payment-succeeded"
  else if eventType = "payment_intent.payment_failed" then "payment-failed"
  else if eventType = "checkout.session.completed" then "checkout-completed"
  else if eventType = "customer.subscription.created" then "subscription-created"
  else if eventType = "customer.subscription.updated" then "subscription-updated"
  else if eventType = "customer.subscription.deleted" then "subscription-deleted"
  else if eventType = "invoice.payment_succeeded" then "invoice-paid"
  else if eventType = "invoice.payment_failed" then "invoice-failed"
  else "stripe-webhook-generic"

/-- Response of the webhook route: HTTP status, JSON body as an ordered
key/value list (the `timestamp` key of the 200 body is not modelled), and
the n8n workflow name that was triggered, if any.
`N8NService.trigger_workflow` catches its own request exceptions, so the
trigger call never raises. -/
structure WebhookResponse where
  httpStatus : Nat
  body : List (String × JVal)
  triggeredWorkflow : Option String
deriving DecidableEq, Repr

/-- Embedding of `stripe_webhook` (lines 517-602): on a successful parse
every branch of the event dispatch triggers exactly one n8n workflow, sets
`workflow_triggered = True` and answers 200 with `status`, `event_type` and
`n8n_triggered` keys; `ValueError` and signature failures answer 400, any
other exception answers 500. -/
def stripeWebhook (parse : ParseOutcome) : WebhookResponse :=
  match parse with
  | .parsed t =>
      { httpStatus := 200,
        body := [("status", .s "success"), ("event_type", .s t),
                 ("n8n_triggered", .b true)],
        triggeredWorkflow := some (eventWorkflowName t) }
  | .valueError _ =>
      { httpStatus := 400, body := [("error", .s "Invalid payload")],
        triggeredWorkflow := none }
  | .sigError _ =>
      { httpStatus := 400, body := [("error", .s "Invalid signature")],
        triggeredWorkflow := none }
  | .otherError _ =>
      { httpStatus := 500, body := [("error", .s "Internal server error")],
        triggeredWorkflow := none }

/-- Lookup of a key in a response body. -/
def bodyLookup (resp : WebhookResponse) (key : String) : Option JVal :=
  (resp.body.find? (fun kv => kv.fst == key)).map (fun kv => kv.snd)

/-! ### Feedback sentiment (app_enhanced.py, lines 798-809) -/

/-- Tests whether the first list is a leading segment of the second. -/
def beginsWith : List Char → List Char → Bool
  | [], _ => true
  | _ :: _, [] => false
  | c :: cs, d :: ds => c == d && beginsWith cs ds

/-- Tests whether the second list occurs contiguously inside the first
(the semantics of the Python `in` operator on strings). -/
def containsChars : List Char → List Char → Bool
  | [], needle => needle.isEmpty
  | c :: rest, needle => beginsWith needle (c :: rest) || containsChars rest needle

/-- Substring test on strings: `needle in hay` in Python. -/
def strContains (hay needle : String) : Bool :=
  containsChars hay.data needle.data

/-- Lower-casing of a string, character by character (the behaviour of
Python str.lower on the ASCII keywords the sentiment heuristic uses). -/
def strLower (s : String) : String :=
  ⟨s.data.map Char.toLower⟩

/-- The positive keywords of the sentiment heuristic. -/
def positiveWords : List String :=
  ["great", "awesome", "love", "excellent", "amazing"]

/-- The negative keywords of the sentiment heuristic. -/
def negativeWords : List String :=
  ["bad", "terrible", "hate", "awful", "worst"]

/-- Embedding of the chained conditional computing `sentiment` in
`user_test`: positive if any positive keyword occurs in the lower-cased
feedback, else negative if any negative keyword occurs, else neutral. -/
def analyzeSentiment (feedback : String) : String :=
  if positiveWords.any (fun w => strContains (strLower feedback) w) then "positive"
  else if negativeWords.any (fun w => strContains (strLower feedback) w) then "negative"
  else "neutral"

/-! ### Sample values (the canned mock data of the source, for concrete runs) -/

/-- A configuration with every platform enabled. -/
def cfgAll : Config := ⟨true, true, true, true, true, true, true⟩

/-- A configuration with the two child-agent platforms (replicate, agora)
disabled. -/
def cfgNoChild : Config := ⟨true, true, true, true, true, false, false⟩

/-- The canned adapter responses of the mock helper methods (lines
1067-1121). -/
def sampleEnv : AdapterEnv :=
  { stripeValidate := { valid := true, processing_time_ms := 100 },
    stripeCustomer := { customer_id := "cus_mock_1", processing_time_ms := 200 },
    replicateSwap :=
      { output_url := "https://replicate.delivery/mock-output.jpg",
        processing_time_ms := 2500 },
    replicateImages :=
      { images := ["https://replicate.delivery/mock-1.jpg"],
        processing_time_ms := 1500 },
    n8nTrig := { triggered := true, workflow_id := "n8n_1", processing_time_ms := 300 },
    vercelDeploy :=
      { url := "https://playalter-result.vercel.app", deployment_id := "dpl_1",
        processing_time_ms := 1000 },
    vercelContent :=
      { url := "https://playalter-content.vercel.app", processing_time_ms := 1200 },
    agoraToken := { token := "agora_token_1", expires_at := 3600, processing_time_ms := 100 },
    agoraSetup := { user_profile_id := "agora_user_u", processing_time_ms := 200 },
    openaiGen :=
      { text := "Generated content", image_prompt := "Generated image prompt",
        processing_time_ms := 1000 },
    aiPipeline := { pipeline_id := "ai_pipeline_1", processing_time_ms := 500 } }

/-- The canned adapter responses with an invalid payment validation. -/
def sampleEnvInvalid : AdapterEnv :=
  { sampleEnv with stripeValidate := { valid := false, processing_time_ms := 100 } }

/-! ### Claims -/

/-- Claim C2: for every unknown workflow name, `orchestrate_workflow` never
raises to its caller (the embedding is a total function) and returns a
failed result: status `failed`, zero step entries recorded (the failure
dict carries no `steps` key, so the list read with a default is empty), and
the error field populated with the unknown-workflow condition. -/
theorem unknown_workflow_fails_without_steps (cfg : Config) (env : AdapterEnv)
    (nowSec : Nat) (workflowName : String) (data : WorkflowData)
    (h : workflowName ∉ workflowNames) :
    (orchestrateWorkflow cfg env nowSec workflowName data).status = "failed" ∧
    (orchestrateWorkflow cfg env nowSec workflowName data).stepsOrEmpty = [] ∧
    (orchestrateWorkflow cfg env nowSec workflowName data).errorKey =
      some ("Unknown workflow: " ++ workflowName) := by
  simp only [workflowNames, List.mem_cons, List.not_mem_nil, or_false, not_or] at h
  obtain ⟨h1, h2, h3, h4⟩ := h
  simp [orchestrateWorkflow, WorkflowResult.status, WorkflowResult.stepsOrEmpty,
    WorkflowResult.stepsKey, WorkflowResult.errorKey, h1, h2, h3, h4]

/-- Witness for C2 at the test input named by the specification. -/
theorem unknown_workflow_fails_without_steps_witness :
    (orchestrateWorkflow cfgAll sampleEnv 1000 "unknown_name" {}).status = "failed" ∧
    (orchestrateWorkflow cfgAll sampleEnv 1000 "unknown_name" {}).stepsOrEmpty = [] ∧
    (orchestrateWorkflow cfgAll sampleEnv 1000 "unknown_name" {}).errorKey =
      some ("Unknown workflow: " ++ "unknown_name") :=
  unknown_workflow_fails_without_steps cfgAll sampleEnv 1000 "unknown_name" {}
    (by decide)

/-- Claim C3 counterexample: an options map carrying the unrecognized value
`not-a-real-value` for `ethnic` does not get the documented default
`diverse` — the invalid value is passed through verbatim (the other two
fields do get their defaults, because they are missing, not invalid). -/
theorem mask_options_passthrough_counterexample :
    (buildMaskOptions { ethnic := some "not-a-real-value" }).ethnic =
      "not-a-real-value" ∧
    (buildMaskOptions { ethnic := some "not-a-real-value" }).ethnic ≠ "diverse" ∧
    (buildMaskOptions { ethnic := some "not-a-real-value" }).quality = "ultra" ∧
    (buildMaskOptions { ethnic := some "not-a-real-value" }).AR = "overlays" := by
  refine ⟨rfl, ?_, rfl, rfl⟩
  decide

/-- Claim C3 (amended): the `MaskProcessingOptions` built by
`orchestrate_mask_stream` substitutes the documented default only for a
missing key; a provided value — recognised or not — is echoed verbatim
(never validated, never rejected).  In particular
`{ethnic: asian, quality: high, AR: full}` echoes exactly those values and
an options map providing no keys yields the three defaults. -/
theorem mask_options_defaults_and_passthrough (e q a : String) (o : OptionsDict) :
    buildMaskOptions { ethnic := some e, quality := some q, AR := some a } =
      { ethnic := e, quality := q, AR := a } ∧
    buildMaskOptions {} =
      { ethnic := "diverse", quality := "ultra", AR := "overlays" } ∧
    (o.ethnic = none → (buildMaskOptions o).ethnic = "diverse") ∧
    (o.quality = none → (buildMaskOptions o).quality = "ultra") ∧
    (o.AR = none → (buildMaskOptions o).AR = "overlays") := by
  refine ⟨rfl, rfl, ?_, ?_, ?_⟩ <;> intro h <;> simp [buildMaskOptions, h]

/-- Witness for C3 at the round-trip inputs named by the specification. -/
theorem mask_options_defaults_and_passthrough_witness :
    buildMaskOptions { ethnic := some "asian", quality := some "high", AR := some "full" } =
      { ethnic := "asian", quality := "high", AR := "full" } ∧
    (buildMaskOptions { ethnic := some "not-a-real-value" }).quality = "ultra" :=
  ⟨(mask_options_defaults_and_passthrough "asian" "high" "full" {}).1,
   (mask_options_defaults_and_passthrough "a" "b" "c"
      { ethnic := some "not-a-real-value" }).2.2.2.1 rfl⟩

/-- Claim C5: when the stripe platform is enabled and the payment-validation
adapter reports the payment invalid, the face_swap_payment workflow hard
stops after step 1: the result is failed, its steps list has exactly the
one validation entry, and no later step runs. -/
theorem payment_invalid_hard_stop (cfg : Config) (env : AdapterEnv)
    (nowSec : Nat) (data : WorkflowData)
    (hs : cfg.stripeEnabled = true) (hv : env.stripeValidate.valid = false) :
    orchestrateFaceSwapPayment cfg env ("wf_" ++ toString nowSec) data =
      Except.ok
        { workflow_id := "wf_" ++ toString nowSec, status := "failed",
          reason := some "payment_invalid",
          steps := [⟨"stripe_validation", .stripeValidation env.stripeValidate⟩] } ∧
    (orchestrateWorkflow cfg env nowSec "face_swap_payment" data).status = "failed" ∧
    (orchestrateWorkflow cfg env nowSec "face_swap_payment" data).stepsKey =
      some [⟨"stripe_validation", .stripeValidation env.stripeValidate⟩] := by
  have key : orchestrateFaceSwapPayment cfg env ("wf_" ++ toString nowSec) data =
      Except.ok
        { workflow_id := "wf_" ++ toString nowSec, status := "failed",
          reason := some "payment_invalid",
          steps := [⟨"stripe_validation", .stripeValidation env.stripeValidate⟩] } := by
    simp [orchestrateFaceSwapPayment, hs, hv, pure, Except.pure]
  refine ⟨key, ?_, ?_⟩ <;>
    simp [orchestrateWorkflow, key, WorkflowResult.status, WorkflowResult.stepsKey]

/-- Witness for C5 with the mock adapters, payment validation forced
invalid. -/
theorem payment_invalid_hard_stop_witness :
    (orchestrateWorkflow cfgAll sampleEnvInvalid 1000 "face_swap_payment" {}).status =
      "failed" ∧
    (orchestrateWorkflow cfgAll sampleEnvInvalid 1000 "face_swap_payment" {}).stepsKey =
      some [⟨"stripe_validation", .stripeValidation sampleEnvInvalid.stripeValidate⟩] :=
  ⟨(payment_invalid_hard_stop cfgAll sampleEnvInvalid 1000 {} rfl rfl).2.1,
   (payment_invalid_hard_stop cfgAll sampleEnvInvalid 1000 {} rfl rfl).2.2⟩

/-- Claim C7: the replicate health probe classifies an HTTP 200 response as
Connected, an HTTP 402 payment-required response as Configured with an
explanatory message, and any other non-2xx response as Error. -/
theorem replicate_probe_classification (t : Nat) (code : Nat)
    (h2xx : ¬(200 ≤ code ∧ code < 300)) (h402 : code ≠ 402) :
    healthCheckReplicate (.status 200 t) =
      { name := "replicate", status := .connected, response_time_ms := some t } ∧
    healthCheckReplicate (.status 402 t) =
      { name := "replicate", status := .configured, response_time_ms := some t,
        error_message := some "API valid but needs credit (HTTP 402)" } ∧
    (healthCheckReplicate (.status code t)).status = PlatformStatus.error ∧
    (healthCheckReplicate (.status code t)).error_message =
      some ("HTTP " ++ toString code) := by
  have hne : code ≠ 200 := by
    rintro rfl
    exact h2xx (by decide)
  refine ⟨rfl, rfl, ?_, ?_⟩ <;> simp [healthCheckReplicate, hne, h402]

/-- Witness for C7 at a concrete 5xx status. -/
theorem replicate_probe_classification_witness :
    (healthCheckReplicate (.status 500 7)).status = PlatformStatus.error ∧
    healthCheckReplicate (.status 402 7) =
      { name := "replicate", status := .configured, response_time_ms := some 7,
        error_message := some "API valid but needs credit (HTTP 402)" } :=
  ⟨(replicate_probe_classification 7 500 (by decide) (by decide)).2.2.1,
   (replicate_probe_classification 7 500 (by decide) (by decide)).2.1⟩

/-- Claim C6: the health aggregator is a total function (no probe failure
can raise out of it), it produces exactly one entry per enabled platform, a
probe that raises is converted into an Error entry (and a transport/timeout
exception inside the replicate probe into a Disconnected entry) rather than
propagating, and the entry computed for a platform depends only on that
own probe outcome of that platform — other probes cannot affect it. -/
theorem health_check_isolation (cfg : Config) (probe p1 p2 : String → ProbeOutcome)
    (n : String) (msg : String) (t : Nat) :
    (healthCheckAll cfg probe).length = (enabledPlatforms cfg).length ∧
    (n ∈ platformNames → probe n = .exn msg t →
      healthCheckPlatform probe n =
        { name := n, status := .error, response_time_ms := some t,
          error_message := some msg }) ∧
    healthCheckReplicate (.raised msg t) =
      { name := "replicate", status := .disconnected, response_time_ms := some t,
        error_message := some msg } ∧
    (enabledOf cfg n = true → n ∈ platformNames →
      healthCheckPlatform probe n ∈ healthCheckAll cfg probe) ∧
    (p1 n = p2 n → healthCheckPlatform p1 n = healthCheckPlatform p2 n) := by
  refine ⟨?_, ?_, rfl, ?_, ?_⟩
  · simp [healthCheckAll]
  · intro hmem hp
    simp [healthCheckPlatform, hmem, hp]
  · intro hen hmem
    exact List.mem_map_of_mem (healthCheckPlatform probe)
      (List.mem_filter.mpr ⟨hmem, hen⟩)
  · intro h
    simp only [healthCheckPlatform, h]

/-- Witness for C6: a probe oracle that times out everywhere still yields an
Error entry for stripe, present in the aggregate. -/
theorem health_check_isolation_witness :
    healthCheckPlatform (fun _ => .exn "Timeout" 5) "stripe" =
      { name := "stripe", status := .error, response_time_ms := some 5,
        error_message := some "Timeout" } ∧
    healthCheckPlatform (fun _ => .exn "Timeout" 5) "stripe" ∈
      healthCheckAll cfgAll (fun _ => .exn "Timeout" 5) := by
  have h := health_check_isolation cfgAll (fun _ => .exn "Timeout" 5)
    (fun _ => .exn "Timeout" 5) (fun _ => .exn "Timeout" 5) "stripe" "Timeout" 5
  exact ⟨h.2.1 (by decide) rfl, h.2.2.2.1 rfl (by decide)⟩

/-- Claim C8 counterexample: the 200 body of the billing webhook has no
workflow_triggered key at all — the triggered flag is under the key
n8n_triggered. -/
theorem webhook_body_key_counterexample :
    bodyLookup (stripeWebhook (.parsed "customer.subscription.deleted"))
      "workflow_triggered" = none ∧
    bodyLookup (stripeWebhook (.parsed "customer.subscription.deleted"))
      "n8n_triggered" = some (.b true) := by
  constructor <;> rfl

/-- Claim C8 (amended): for every successfully parsed webhook event the
handler answers 200 with a body carrying `status`, `event_type` and the
triggered flag under the key `n8n_triggered` (not `workflow_triggered`),
set to true; the event type `customer.subscription.deleted` triggers the
workflow `subscription-deleted` and every event type outside the known
mapping triggers the single generic fallback workflow. -/
theorem webhook_dispatch (t : String) :
    (stripeWebhook (.parsed t)).httpStatus = 200 ∧
    bodyLookup (stripeWebhook (.parsed t)) "status" = some (.s "success") ∧
    bodyLookup (stripeWebhook (.parsed t)) "event_type" = some (.s t) ∧
    bodyLookup (stripeWebhook (.parsed t)) "n8n_triggered" = some (.b true) ∧
    (stripeWebhook (.parsed t)).triggeredWorkflow = some (eventWorkflowName t) ∧
    eventWorkflowName "customer.subscription.deleted" = "subscription-deleted" ∧
    (t ∉ knownEventTypes → eventWorkflowName t = "stripe-webhook-generic") := by
  refine ⟨rfl, rfl, rfl, rfl, rfl, rfl, ?_⟩
  intro h
  simp only [knownEventTypes, List.mem_cons, List.not_mem_nil, or_false, not_or] at h
  obtain ⟨h1, h2, h3, h4, h5, h6, h7, h8⟩ := h
  simp [eventWorkflowName, h1, h2, h3, h4, h5, h6, h7, h8]

/-- Witness for C8 at a concrete unknown event type. -/
theorem webhook_dispatch_witness :
    (stripeWebhook (.parsed "some.unknown.event")).httpStatus = 200 ∧
    eventWorkflowName "some.unknown.event" = "stripe-webhook-generic" :=
  ⟨(webhook_dispatch "some.unknown.event").1,
   (webhook_dispatch "some.unknown.event").2.2.2.2.2.2 (by decide)⟩

/-- Claim C9: with a non-empty input image, `orchestrate_mask_stream`
reports top-level status `success` no matter how the two child-agent steps
fare; a failed replicate step (here: platform disabled, so the exception
handler inside the step returns a failed entry) is recorded in the processing
details and only leaves `swapped_url` as None, and likewise a failed agora
step only leaves `stream_token` as None. -/
theorem mask_stream_partial_failures_keep_success (cfg : Config)
    (timing : MaskTimingEnv) (decResp : DecisionResponse) (tNow : Nat)
    (uuidHex8 : String) (body : MaskBody) (h : body.input_image ≠ "") :
    (orchestrateMaskStream cfg timing decResp tNow uuidHex8 body).status = "success" ∧
    (cfg.replicateEnabled = false →
      (orchestrateMaskStream cfg timing decResp tNow uuidHex8 body).swapped_url = none ∧
      ((orchestrateMaskStream cfg timing decResp tNow uuidHex8 body).replicate_processing.map
        (fun r => r.status)) = some (some "failed") ∧
      ((orchestrateMaskStream cfg timing decResp tNow uuidHex8 body).replicate_processing.map
        (fun r => r.error)) = some (some "Replicate agent not enabled")) ∧
    (cfg.agoraEnabled = false →
      (orchestrateMaskStream cfg timing decResp tNow uuidHex8 body).stream_token = none ∧
      ((orchestrateMaskStream cfg timing decResp tNow uuidHex8 body).agora_streaming.map
        (fun r => r.status)) = some (some "failed") ∧
      ((orchestrateMaskStream cfg timing decResp tNow uuidHex8 body).agora_streaming.map
        (fun r => r.error)) = some (some "Agora agent not enabled")) := by
  refine ⟨?_, ?_, ?_⟩
  · simp [orchestrateMaskStream, h]
  · intro hrep
    refine ⟨?_, ?_, ?_⟩ <;>
      simp [orchestrateMaskStream, h, replicateAgentProcessMask, hrep]
  · intro hag
    refine ⟨?_, ?_, ?_⟩ <;>
      simp [orchestrateMaskStream, h, agoraAgentSetupStream, hag]

/-- Witness for C9: both child platforms disabled, top-level status still
success with both output references None. -/
theorem mask_stream_partial_failures_keep_success_witness :
    (orchestrateMaskStream cfgNoChild ⟨1, 2, 3⟩ {} 50 "abcd1234"
      { input_image := "img" }).status = "success" ∧
    (orchestrateMaskStream cfgNoChild ⟨1, 2, 3⟩ {} 50 "abcd1234"
      { input_image := "img" }).swapped_url = none ∧
    (orchestrateMaskStream cfgNoChild ⟨1, 2, 3⟩ {} 50 "abcd1234"
      { input_image := "img" }).stream_token = none := by
  have h := mask_stream_partial_failures_keep_success cfgNoChild ⟨1, 2, 3⟩ {} 50
    "abcd1234" { input_image := "img" } (by decide)
  exact ⟨h.1, (h.2.1 rfl).1, (h.2.2 rfl).1⟩

/-- Claim C10: the keyword sentiment classifier gives the positive check
priority: any feedback containing a positive keyword (case-insensitive
substring) is classified positive even if negative keywords are present
too; negative is returned only when no positive keyword but some negative
keyword occurs; otherwise neutral. -/
theorem sentiment_priority (feedback : String) :
    ((∃ w ∈ positiveWords, strContains (strLower feedback) w = true) →
      analyzeSentiment feedback = "positive") ∧
    ((∀ w ∈ positiveWords, strContains (strLower feedback) w = false) →
      (∃ w ∈ negativeWords, strContains (strLower feedback) w = true) →
      analyzeSentiment feedback = "negative") ∧
    ((∀ w ∈ positiveWords, strContains (strLower feedback) w = false) →
      (∀ w ∈ negativeWords, strContains (strLower feedback) w = false) →
      analyzeSentiment feedback = "neutral") := by
  refine ⟨?_, ?_, ?_⟩
  · intro h
    have hp : positiveWords.any (fun w => strContains (strLower feedback) w) = true := by
      rw [List.any_eq_true]
      obtain ⟨w, hw, hc⟩ := h
      exact ⟨w, hw, hc⟩
    simp [analyzeSentiment, hp]
  · intro hp hn
    have hp' : positiveWords.any (fun w => strContains (strLower feedback) w) = false := by
      rw [List.any_eq_false]
      intro w hw
      simp [hp w hw]
    have hn' : negativeWords.any (fun w => strContains (strLower feedback) w) = true := by
      rw [List.any_eq_true]
      obtain ⟨w, hw, hc⟩ := hn
      exact ⟨w, hw, hc⟩
    simp [analyzeSentiment, hp', hn']
  · intro hp hn
    have hp' : positiveWords.any (fun w => strContains (strLower feedback) w) = false := by
      rw [List.any_eq_false]
      intro w hw
      simp [hp w hw]
    have hn' : negativeWords.any (fun w => strContains (strLower feedback) w) = false := by
      rw [List.any_eq_false]
      intro w hw
      simp [hn w hw]
    simp [analyzeSentiment, hp', hn']

/-- Witness for C10: feedback containing both a positive and a negative
keyword is classified positive. -/
theorem sentiment_priority_witness :
    analyzeSentiment "I love it but it is bad" = "positive" :=
  (sentiment_priority "I love it but it is bad").1 (by decide)

/-- Claim C1 counterexample: an `orchestrate_mask_stream` run whose
master-decision phase takes 5 ms reports a total of 2905 ms while its two
step entries report 2800 ms and 100 ms — the total is the wall-clock span,
not the 2900 ms sum of the step-reported times. -/
theorem mask_stream_total_time_counterexample :
    (orchestrateMaskStream cfgAll ⟨5, 2800, 100⟩ {} 42 "deadbeef"
      { input_image := "img" }).total_processing_time_ms = some 2905 ∧
    ((orchestrateMaskStream cfgAll ⟨5, 2800, 100⟩ {} 42 "deadbeef"
      { input_image := "img" }).replicate_processing.map
        (fun r => r.processing_time_ms)) = some 2800 ∧
    ((orchestrateMaskStream cfgAll ⟨5, 2800, 100⟩ {} 42 "deadbeef"
      { input_image := "img" }).agora_streaming.map
        (fun r => r.processing_time_ms)) = some 100 ∧
    (orchestrateMaskStream cfgAll ⟨5, 2800, 100⟩ {} 42 "deadbeef"
      { input_image := "img" }).total_processing_time_ms ≠ some (2800 + 100) := by
  have h : (orchestrateMaskStream cfgAll ⟨5, 2800, 100⟩ {} 42 "deadbeef"
      { input_image := "img" }).total_processing_time_ms = some 2905 := rfl
  refine ⟨h, rfl, rfl, ?_⟩
  rw [h]
  decide

/-- Claim C1 (amended): the sequential face_swap_payment variant reports a
total (`processing_time_ms`) equal to the sum of the elapsed times the
steps individually report; the decision-augmented `orchestrate_mask_stream`
instead reports `total_processing_time_ms` as the wall-clock span of the
whole run, which equals the sum of the elapsed times the two child steps
report plus the master-decision phase duration (so it exceeds the step sum
whenever the decision phase takes any time). -/
theorem total_time_aggregation (cfg : Config) (env : AdapterEnv) (wid : String)
    (data : WorkflowData) (o : FaceSwapOut) (tm : Nat)
    (timing : MaskTimingEnv) (decResp : DecisionResponse) (tNow : Nat)
    (uuidHex8 : String) (body : MaskBody)
    (hok : orchestrateFaceSwapPayment cfg env wid data = Except.ok o)
    (htm : o.processing_time_ms = some tm)
    (hbody : body.input_image ≠ "") :
    tm = (o.steps.map (fun s => s.result.ptime)).sum ∧
    (orchestrateMaskStream cfg timing decResp tNow uuidHex8 body).total_processing_time_ms =
      some (timing.masterMs + timing.replicateMs + timing.agoraMs) ∧
    ((orchestrateMaskStream cfg timing decResp tNow uuidHex8 body).replicate_processing.map
      (fun r => r.processing_time_ms)) = some timing.replicateMs ∧
    ((orchestrateMaskStream cfg timing decResp tNow uuidHex8 body).agora_streaming.map
      (fun r => r.processing_time_ms)) = some timing.agoraMs := by
  refine ⟨?_, ?_, ?_, ?_⟩
  · obtain ⟨n8, st, vc, oa, gk, rp, ag⟩ := cfg
    rcases Bool.eq_false_or_eq_true env.stripeValidate.valid with hv | hv <;>
    rcases Bool.eq_false_or_eq_true data.deploy_result with hd | hd <;>
    cases st <;> cases rp <;> cases n8 <;> cases vc <;>
      simp_all [orchestrateFaceSwapPayment, StepResult.ptime, pure, Except.pure,
        getVar, bind, Except.bind]
    all_goals subst hok
    all_goals simp_all [StepResult.ptime]
  · simp [orchestrateMaskStream, hbody]
  · rcases Bool.eq_false_or_eq_true cfg.replicateEnabled with hr | hr <;>
      simp [orchestrateMaskStream, hbody, replicateAgentProcessMask, hr]
  · rcases Bool.eq_false_or_eq_true cfg.agoraEnabled with ha | ha <;>
      simp [orchestrateMaskStream, hbody, agoraAgentSetupStream, ha]

/-- Witness for C1 at the mock adapter data: the completed
face_swap_payment run (stripe, replicate, n8n steps; no deploy) reports
2900 = 100 + 2500 + 300, and the mask-stream run with segment durations
5/2800/100 reports a 2905 ms total. -/
theorem total_time_aggregation_witness :
    (2900 : Nat) =
      (([⟨"stripe_validation", .stripeValidation sampleEnv.stripeValidate⟩,
         ⟨"face_swap", .faceSwap sampleEnv.replicateSwap⟩,
         ⟨"n8n_trigger", .n8nTrigger sampleEnv.n8nTrig⟩] : List StepEntry).map
        (fun s => s.result.ptime)).sum ∧
    (orchestrateMaskStream cfgAll ⟨5, 2800, 100⟩ {} 42 "abcd1234"
      { input_image := "img" }).total_processing_time_ms = some 2905 := by
  have h := total_time_aggregation cfgAll sampleEnv "wf_1000" {}
    { workflow_id := "wf_1000", status := "completed",
      steps := [⟨"stripe_validation", .stripeValidation sampleEnv.stripeValidate⟩,
                ⟨"face_swap", .faceSwap sampleEnv.replicateSwap⟩,
                ⟨"n8n_trigger", .n8nTrigger sampleEnv.n8nTrig⟩],
      final_result := some "https://replicate.delivery/mock-output.jpg",
      processing_time_ms := some 2900 }
    2900 ⟨5, 2800, 100⟩ {} 42 "abcd1234" { input_image := "img" }
    rfl rfl (by decide)
  exact ⟨h.1, h.2.1⟩

/-- Auxiliary for C4: the face_swap_payment sub-workflow uses its workflow
id argument only for the reported `workflow_id` field — the rest of the
result (in particular the step sequence) is independent of it. -/
theorem fsp_workflow_id_rename (cfg : Config) (env : AdapterEnv)
    (data : WorkflowData) (w : String) :
    orchestrateFaceSwapPayment cfg env w data =
      (orchestrateFaceSwapPayment cfg env "" data).map
        (fun o => { o with workflow_id := w }) := by
  obtain ⟨n8, st, vc, oa, gk, rp, ag⟩ := cfg
  rcases Bool.eq_false_or_eq_true env.stripeValidate.valid with hv | hv <;>
  rcases Bool.eq_false_or_eq_true data.deploy_result with hd | hd <;>
  cases st <;> cases rp <;> cases n8 <;> cases vc <;>
    simp_all [orchestrateFaceSwapPayment, pure, Except.pure, getVar, bind,
      Except.bind, Except.map]

/-- Auxiliary for C4: same statement for the user_onboarding sub-workflow. -/
theorem onboarding_workflow_id_rename (cfg : Config) (env : AdapterEnv)
    (data : WorkflowData) (w : String) :
    orchestrateUserOnboarding cfg env w data =
      (orchestrateUserOnboarding cfg env "" data).map
        (fun o => { o with workflow_id := w }) := by
  obtain ⟨n8, st, vc, oa, gk, rp, ag⟩ := cfg
  cases st <;> cases ag <;> cases n8 <;>
    simp_all [orchestrateUserOnboarding, pure, Except.pure, getVar, bind,
      Except.bind, Except.map]

/-- Auxiliary for C4: same statement for the live_stream_setup
sub-workflow. -/
theorem livestream_workflow_id_rename (cfg : Config) (env : AdapterEnv)
    (data : WorkflowData) (w : String) :
    orchestrateLiveStreamSetup cfg env w data =
      (orchestrateLiveStreamSetup cfg env "" data).map
        (fun o => { o with workflow_id := w }) := by
  obtain ⟨n8, st, vc, oa, gk, rp, ag⟩ := cfg
  cases ag <;> cases oa <;> cases rp <;> cases n8 <;>
    simp_all [orchestrateLiveStreamSetup, pure, Except.pure, getVar, bind,
      Except.bind, Except.map]

/-- Auxiliary for C4: same statement for the ai_content_generation
sub-workflow. -/
theorem aicontent_workflow_id_rename (cfg : Config) (env : AdapterEnv)
    (data : WorkflowData) (w : String) :
    orchestrateAiContentGeneration cfg env w data =
      (orchestrateAiContentGeneration cfg env "" data).map
        (fun o => { o with workflow_id := w }) := by
  obtain ⟨n8, st, vc, oa, gk, rp, ag⟩ := cfg
  rcases Bool.eq_false_or_eq_true data.process_images with hp | hp <;>
  cases oa <;> cases rp <;> cases vc <;> cases n8 <;>
    simp_all [orchestrateAiContentGeneration, pure, Except.pure, getVar, bind,
      Except.bind, Except.map]

/-- Claim C4 counterexample: two `orchestrate_workflow` calls that start
within the same clock second receive the identical workflow id
(`wf_` + whole start second) — even for different workflow names and
inputs — so ids are not distinct per run. -/
theorem workflow_id_collision_counterexample :
    (orchestrateWorkflow cfgAll sampleEnv 1700000000 "face_swap_payment" {}).workflowId =
      (orchestrateWorkflow cfgAll sampleEnv 1700000000 "user_onboarding"
        { user_id := some "u2" }).workflowId ∧
    (orchestrateWorkflow cfgAll sampleEnv 1700000000 "face_swap_payment" {}).workflowId =
      "wf_1700000000" := by
  constructor <;> rfl

/-- Claim C4 (amended): repeated `orchestrate_workflow` calls with
identical input produce structurally identical step sequences regardless of
their start time, but the workflow id is derived from the start second
alone (`wf_` + second), so two calls starting in the same second share one
id — ids are guaranteed distinct only across different start seconds.  An
`orchestrate_mask_stream` id is `mask_stream_` + eight uuid hex chars, and
two such ids coincide exactly when the uuid draws coincide. -/
theorem workflow_id_and_step_determinism (cfg : Config) (env : AdapterEnv)
    (n1 n2 : Nat) (workflowName : String) (data : WorkflowData)
    (timing : MaskTimingEnv) (decResp : DecisionResponse) (t1 t2 : Nat)
    (u1 u2 : String) (body : MaskBody) :
    (orchestrateWorkflow cfg env n1 workflowName data).workflowId =
      "wf_" ++ toString n1 ∧
    (orchestrateWorkflow cfg env n1 workflowName data).stepsKey =
      (orchestrateWorkflow cfg env n2 workflowName data).stepsKey ∧
    (orchestrateMaskStream cfg timing decResp t1 u1 body).workflow_id =
      "mask_stream_" ++ u1 ∧
    ((orchestrateMaskStream cfg timing decResp t1 u1 body).workflow_id =
      (orchestrateMaskStream cfg timing decResp t2 u2 body).workflow_id ↔ u1 = u2) := by
  have hmask : ∀ (t : Nat) (u : String),
      (orchestrateMaskStream cfg timing decResp t u body).workflow_id =
        "mask_stream_" ++ u := by
    intro t u
    by_cases hb : body.input_image = "" <;> simp [orchestrateMaskStream, hb]
  have hwid : ∀ (m : Nat),
      (orchestrateWorkflow cfg env m workflowName data).workflowId =
        "wf_" ++ toString m := by
    intro m
    by_cases h1 : workflowName = "face_swap_payment"
    · subst h1
      simp only [orchestrateWorkflow, reduceIte]
      rw [fsp_workflow_id_rename]
      cases orchestrateFaceSwapPayment cfg env "" data <;>
        simp [Except.map, WorkflowResult.workflowId]
    · by_cases h2 : workflowName = "user_onboarding"
      · subst h2
        simp only [orchestrateWorkflow, reduceIte]
        rw [onboarding_workflow_id_rename]
        cases orchestrateUserOnboarding cfg env "" data <;>
          simp [Except.map, WorkflowResult.workflowId]
      · by_cases h3 : workflowName = "live_stream_setup"
        · subst h3
          simp only [orchestrateWorkflow, reduceIte]
          rw [livestream_workflow_id_rename]
          cases orchestrateLiveStreamSetup cfg env "" data <;>
            simp [Except.map, WorkflowResult.workflowId]
        · by_cases h4 : workflowName = "ai_content_generation"
          · subst h4
            simp only [orchestrateWorkflow, reduceIte]
            rw [aicontent_workflow_id_rename]
            cases orchestrateAiContentGeneration cfg env "" data <;>
              simp [Except.map, WorkflowResult.workflowId]
          · simp [orchestrateWorkflow, h1, h2, h3, h4, WorkflowResult.workflowId]
  have hsteps : (orchestrateWorkflow cfg env n1 workflowName data).stepsKey =
      (orchestrateWorkflow cfg env n2 workflowName data).stepsKey := by
    by_cases h1 : workflowName = "face_swap_payment"
    · subst h1
      simp only [orchestrateWorkflow, reduceIte]
      rw [fsp_workflow_id_rename cfg env data ("wf_" ++ toString n1),
        fsp_workflow_id_rename cfg env data ("wf_" ++ toString n2)]
      cases orchestrateFaceSwapPayment cfg env "" data <;>
        simp [Except.map, WorkflowResult.stepsKey]
    · by_cases h2 : workflowName = "user_onboarding"
      · subst h2
        simp only [orchestrateWorkflow, reduceIte]
        rw [onboarding_workflow_id_rename cfg env data ("wf_" ++ toString n1),
          onboarding_workflow_id_rename cfg env data ("wf_" ++ toString n2)]
        cases orchestrateUserOnboarding cfg env "" data <;>
          simp [Except.map, WorkflowResult.stepsKey]
      · by_cases h3 : workflowName = "live_stream_setup"
        · subst h3
          simp only [orchestrateWorkflow, reduceIte]
          rw [livestream_workflow_id_rename cfg env data ("wf_" ++ toString n1),
            livestream_workflow_id_rename cfg env data ("wf_" ++ toString n2)]
          cases orchestrateLiveStreamSetup cfg env "" data <;>
            simp [Except.map, WorkflowResult.stepsKey]
        · by_cases h4 : workflowName = "ai_content_generation"
          · subst h4
            simp only [orchestrateWorkflow, reduceIte]
            rw [aicontent_workflow_id_rename cfg env data ("wf_" ++ toString n1),
              aicontent_workflow_id_rename cfg env data ("wf_" ++ toString n2)]
            cases orchestrateAiContentGeneration cfg env "" data <;>
              simp [Except.map, WorkflowResult.stepsKey]
          · simp [orchestrateWorkflow, h1, h2, h3, h4, WorkflowResult.stepsKey]
  refine ⟨hwid n1, hsteps, hmask t1 u1, ?_⟩
  rw [hmask t1 u1, hmask t2 u2]
  constructor
  · intro h
    have hdata := congrArg String.data h
    simp only [String.data_append] at hdata
    exact String.ext (List.append_cancel_left hdata)
  · intro h
    rw [h]

/-- Witness for C4 at concrete start times and uuid draws. -/
theorem workflow_id_and_step_determinism_witness :
    (orchestrateWorkflow cfgAll sampleEnv 5 "face_swap_payment" {}).workflowId =
      "wf_" ++ toString 5 ∧
    (orchestrateMaskStream cfgAll ⟨1, 2, 3⟩ {} 9 "aaaa1111"
      { input_image := "x" }).workflow_id = "mask_stream_" ++ "aaaa1111" := by
  have h := workflow_id_and_step_determinism cfgAll sampleEnv 5 6
    "face_swap_payment" {} ⟨1, 2, 3⟩ {} 9 10 "aaaa1111" "bbbb2222"
    { input_image := "x" }
  exact ⟨h.1, h.2.2.1⟩

end Playalter
